import Mathlib

/-!
Verification development for the scoring and reconciliation core of the
my-analysis-ai repository: a shallow embedding of
`src/logic/diagnostic.py`, `src/logic/analysis.py`,
`src/data/questions.py`, `src/models/data_models.py` and the axis-drift
comparison of `src/ui/analysis_ui.py` (`_render_axis_comparison`),
together with theorems settling the specification claims.

Modelling conventions:
- Python floats are modelled as exact rationals (`ℚ`); every arithmetic
  operation the claims touch stays on values that are exact in both
  semantics, except `round(x, 1)`, modelled as exact decimal
  round-half-to-even (`py_round1`).
- `datetime` values are opaque: a timestamp is an integer, and a journal
  entry's date is carried as its already-formatted `%Y-%m-%d` display
  string, the only form the core consumes.
- `datetime.now()` (the pydantic `default_factory` of `diagnosed_at`) is
  modelled as an explicit clock argument `now` to
  `calculate_personality_type`, making the wall-clock dependence visible.
- Python `dict` lookups are association-list lookups (first match);
  Python `in` on strings is literal substring containment on the
  character sequences.
-/

/-- The four diagnostic dimensions (`Dimension` in `data_models.py`). -/
inductive Dimension where
  | EI
  | SN
  | TF
  | JP
deriving DecidableEq, Repr

/-- Python `str` enum `.name` attribute: the member name of the dimension. -/
def Dimension.name : Dimension → String
  | .EI => "EI"
  | .SN => "SN"
  | .TF => "TF"
  | .JP => "JP"

/-- Question scoring direction (`Direction` in `data_models.py`). -/
inductive Direction where
  | POSITIVE
  | NEGATIVE
deriving DecidableEq, Repr

/-- A diagnostic question (`Question` in `data_models.py`). -/
structure Question where
  id : ℤ
  text : String
  dimension : Dimension
  direction : Direction
deriving DecidableEq, Repr

/-- A user's answer to one question (`UserResponse` in `data_models.py`).
The pydantic validator requires `1 ≤ score ≤ 5`; the timestamp is opaque. -/
structure UserResponse where
  user_id : String
  question_id : ℤ
  score : ℤ
  timestamp : ℤ
deriving DecidableEq, Repr

/-- Per-dimension score detail (`DimensionScore` in `data_models.py`).
The pydantic field validator additionally requires
`0 ≤ strength_percent ≤ 100`. -/
structure DimensionScore where
  dimension : Dimension
  first_type : String
  second_type : String
  first_score : ℚ
  second_score : ℚ
  dominant_type : String
  strength_percent : ℚ
deriving DecidableEq, Repr

/-- Full diagnostic result (`PersonalityResult` in `data_models.py`).
`diagnosed_at` is stamped from the clock at construction time. -/
structure PersonalityResult where
  user_id : String
  personality_type : String
  dimension_scores : List DimensionScore
  diagnosed_at : ℤ
deriving DecidableEq, Repr

/-- A journal entry (`JournalEntry` in `data_models.py`); `date` is the
entry's `%Y-%m-%d` formatted date, the only form the analysis consumes. -/
structure JournalEntry where
  id : Option ℤ
  user_id : String
  date : String
  content : String
  tags : List String
  emotion_score : ℤ
  personality_type : Option String
deriving DecidableEq, Repr

/-- A detected blind spot (`BlindSpotInsight` in `data_models.py`). -/
structure BlindSpotInsight where
  category : String
  description : String
  evidence : List String
  recommendation : String
  severity : String
deriving DecidableEq, Repr

/-- The 30-question catalog (`DIAGNOSTIC_QUESTIONS` in `data/questions.py`). -/
def DIAGNOSTIC_QUESTIONS : List Question := [
  ⟨1, "パーティーや大人数の集まりに参加すると、エネルギーが湧いてくる", .EI, .POSITIVE⟩,
  ⟨2, "一人で過ごす時間が、自分をリフレッシュさせてくれる", .EI, .NEGATIVE⟩,
  ⟨3, "初対面の人とでも、すぐに打ち解けて話すことができる", .EI, .POSITIVE⟩,
  ⟨4, "深い話ができる少数の友人関係を、広い交友関係より好む", .EI, .NEGATIVE⟩,
  ⟨5, "考えをまとめるとき、人と話しながら整理することが多い", .EI, .POSITIVE⟩,
  ⟨6, "行動する前に、じっくり考える時間が必要だ", .EI, .NEGATIVE⟩,
  ⟨7, "グループでの活動やチームワークを楽しめる", .EI, .POSITIVE⟩,
  ⟨8, "自分の内面世界や想像の世界に没頭することが多い", .EI, .NEGATIVE⟩,
  ⟨9, "具体的な事実やデータに基づいて判断することを好む", .SN, .POSITIVE⟩,
  ⟨10, "将来の可能性やパターンを想像することが得意だ", .SN, .NEGATIVE⟩,
  ⟨11, "実践的で現実的なアプローチを重視する", .SN, .POSITIVE⟩,
  ⟨12, "抽象的なアイデアや理論について考えることが好きだ", .SN, .NEGATIVE⟩,
  ⟨13, "詳細を正確に把握することに長けている", .SN, .POSITIVE⟩,
  ⟨14, "全体像やビジョンを描くことを優先する", .SN, .NEGATIVE⟩,
  ⟨15, "過去の経験や実績を重要な判断材料にする", .SN, .POSITIVE⟩,
  ⟨16, "決定を下すとき、論理的な分析を最も重視する", .TF, .POSITIVE⟩,
  ⟨17, "他者の感情や価値観を考慮して判断することが多い", .TF, .NEGATIVE⟩,
  ⟨18, "批判的なフィードバックを、改善の機会として受け止められる", .TF, .POSITIVE⟩,
  ⟨19, "人間関係のハーモニーを保つことを優先する", .TF, .NEGATIVE⟩,
  ⟨20, "公平で客観的な判断ができると自負している", .TF, .POSITIVE⟩,
  ⟨21, "共感力が高く、他者の立場に立って考えることができる", .TF, .NEGATIVE⟩,
  ⟨22, "問題解決において、感情より効率を優先する", .TF, .POSITIVE⟩,
  ⟨23, "人を助けたり励ましたりすることに喜びを感じる", .TF, .NEGATIVE⟩,
  ⟨24, "計画を立てて、その通りに物事を進めることを好む", .JP, .POSITIVE⟩,
  ⟨25, "状況に応じて柔軟に対応することが得意だ", .JP, .NEGATIVE⟩,
  ⟨26, "締め切りより前に、早めに仕事を終わらせたい", .JP, .POSITIVE⟩,
  ⟨27, "最後の瞬間まで選択肢を残しておきたい", .JP, .NEGATIVE⟩,
  ⟨28, "決断を下すことで、スッキリした気持ちになる", .JP, .POSITIVE⟩,
  ⟨29, "新しい情報が入れば、計画を変更することに抵抗がない", .JP, .NEGATIVE⟩,
  ⟨30, "整理整頓された環境で作業することを好む", .JP, .POSITIVE⟩]

/-- `get_question_by_id` in `data/questions.py`: first question with the
given id, `None` if absent. -/
def get_question_by_id (question_id : ℤ) : Option Question :=
  DIAGNOSTIC_QUESTIONS.find? (fun q => q.id == question_id)

/-- The `type_mapping` table of `calculate_dimension_score`. -/
def type_mapping : Dimension → String × String
  | .EI => ("E", "I")
  | .SN => ("S", "N")
  | .TF => ("T", "F")
  | .JP => ("J", "P")

/-- The id set of the catalog questions of one dimension
(`question_ids` in `calculate_dimension_score`). -/
def dimension_question_ids (dimension : Dimension) : List ℤ :=
  (DIAGNOSTIC_QUESTIONS.filter (fun q => q.dimension == dimension)).map (·.id)

/-- Python `round` at an exact value: round half to even. -/
def round_half_even (q : ℚ) : ℤ :=
  if q - (⌊q⌋ : ℚ) < 1/2 then ⌊q⌋
  else if (1 : ℚ)/2 < q - (⌊q⌋ : ℚ) then ⌊q⌋ + 1
  else if ⌊q⌋ % 2 = 0 then ⌊q⌋ else ⌊q⌋ + 1

/-- Python `round(q, 1)` at an exact value. -/
def py_round1 (q : ℚ) : ℚ := (round_half_even (q * 10) : ℚ) / 10

/-- One iteration of the accumulation loop of `calculate_dimension_score`:
normalize the answer to `score − 1` and credit the two poles according to
the question's direction (unknown question ids are skipped). -/
def score_step (acc : ℚ × ℚ) (r : UserResponse) : ℚ × ℚ :=
  match get_question_by_id r.question_id with
  | none => acc
  | some q =>
    match q.direction with
    | .POSITIVE => (acc.1 + ((r.score : ℚ) - 1), acc.2 + (4 - ((r.score : ℚ) - 1)))
    | .NEGATIVE => (acc.1 + (4 - ((r.score : ℚ) - 1)), acc.2 + ((r.score : ℚ) - 1))

/-- `calculate_dimension_score` in `logic/diagnostic.py`. -/
def calculate_dimension_score (responses : List UserResponse) (dimension : Dimension) :
    DimensionScore :=
  let first_type := (type_mapping dimension).1
  let second_type := (type_mapping dimension).2
  let dimension_responses :=
    responses.filter (fun r => decide (r.question_id ∈ dimension_question_ids dimension))
  let scores := dimension_responses.foldl score_step (0, 0)
  let total_score := scores.1 + scores.2
  let strength_percent :=
    if 0 < total_score then |scores.1 - scores.2| / total_score * 100 else 0
  let dominant_type := if scores.2 ≤ scores.1 then first_type else second_type
  { dimension := dimension
    first_type := first_type
    second_type := second_type
    first_score := scores.1
    second_score := scores.2
    dominant_type := dominant_type
    strength_percent := py_round1 strength_percent }

/-- `calculate_personality_type` in `logic/diagnostic.py`; `now` is the
clock value `datetime.now()` read when the result is constructed. -/
def calculate_personality_type (responses : List UserResponse) (user_id : String)
    (now : ℤ) : PersonalityResult :=
  let dimension_scores :=
    [Dimension.EI, Dimension.SN, Dimension.TF, Dimension.JP].map
      (calculate_dimension_score responses)
  { user_id := user_id
    personality_type := String.join (dimension_scores.map (·.dominant_type))
    dimension_scores := dimension_scores
    diagnosed_at := now }

/-- Literal substring containment: Python `sub in s` on strings. -/
def strContains (s sub : String) : Bool :=
  s.data.tails.any (fun t => sub.data.isPrefixOf t)

/-- A named contradiction pattern (one entry of `BLIND_SPOT_PATTERNS`
in `logic/analysis.py`). -/
structure BlindSpotPattern where
  pid : String
  ptype : String
  keywords : List String
  insight : String
  recommendation : String
deriving DecidableEq, Repr

/-- `BLIND_SPOT_PATTERNS` in `logic/analysis.py`, in dict insertion order. -/
def BLIND_SPOT_PATTERNS : List BlindSpotPattern := [
  ⟨"P_planning_stress", "P", ["計画通りにいかない", "予定が崩れた", "イライラ"],
    "柔軟性が強みですが、無意識に計画への期待を持っているようです。",
    "「計画」ではなく「方向性」を設定することで、自分らしい柔軟さを活かせるかもしれません。"⟩,
  ⟨"J_spontaneous_desire", "J", ["もっと自由に", "縛られている", "窮屈"],
    "秩序を好む一方で、自発性への欲求も持っているようです。",
    "計画の中に「予定外の余白時間」を意図的に設けてみましょう。"⟩,
  ⟨"T_emotional_struggle", "T", ["感情的になった", "気持ちを抑えられなかった", "怒り"],
    "論理的であることを重視していますが、感情も大切な情報源です。",
    "感情を「データ」として観察することで、自分をより深く理解できます。"⟩,
  ⟨"F_logic_frustration", "F", ["論理的に考えられない", "合理的になれない", "効率が悪い"],
    "共感を大切にしながらも、論理的であることへの憧れがありそうです。",
    "「人を助けるための論理」という視点で、分析力を活かしてみましょう。"⟩,
  ⟨"E_social_exhaustion", "E", ["人疲れ", "一人になりたい", "静かにしたい"],
    "社交的でも、内省の時間は必要です。",
    "「充電のための一人時間」を罪悪感なく取り入れましょう。"⟩,
  ⟨"I_connection_desire", "I", ["もっと話したかった", "繋がりたい", "孤独"],
    "内向的でも、人との繋がりを求めるのは自然なことです。",
    "少人数での深い対話の機会を意識的に作ってみましょう。"⟩]

/-- The 50-character excerpt of `detect_blind_spots`:
`content[:50] + "..."` when the content is longer than 50 characters,
otherwise the content itself. -/
def excerpt (content : String) : String :=
  if 50 < content.length then String.mk (content.data.take 50) ++ "..." else content

/-- One evidence line of `detect_blind_spots`:
the date-prefixed excerpt of a journal entry. -/
def evidence_line (j : JournalEntry) : String :=
  "[" ++ j.date ++ "] " ++ excerpt j.content

/-- The concatenated journal corpus (`all_content` in `detect_blind_spots`). -/
def all_content (journals : List JournalEntry) : String :=
  " ".intercalate (journals.map (·.content))

/-- The keywords of a pattern found in the corpus
(`matched_keywords` in `detect_blind_spots`). -/
def matched_keywords (pattern : BlindSpotPattern) (content : String) : List String :=
  pattern.keywords.filter (fun kw => strContains content kw)

/-- The evidence collection loop of `detect_blind_spots`: one date-prefixed
excerpt per entry whose content contains some matched keyword (the inner
loop breaks after the first matching keyword), truncated to 3 entries. -/
def pattern_evidence (journals : List JournalEntry) (matched : List String) :
    List String :=
  (journals.filterMap (fun j =>
    if matched.any (fun kw => strContains j.content kw)
    then some (evidence_line j) else none)).take 3

/-- The body of the pattern loop of `detect_blind_spots`: `none` when the
pattern is skipped (pole letter not in the type, or no keyword found). -/
def process_pattern (personality : PersonalityResult) (journals : List JournalEntry)
    (pattern : BlindSpotPattern) : Option BlindSpotInsight :=
  if strContains personality.personality_type pattern.ptype then
    let matched := matched_keywords pattern (all_content journals)
    if matched.isEmpty then none
    else some
      { category := pattern.ptype ++ "タイプの盲点"
        description := pattern.insight
        evidence := pattern_evidence journals matched
        recommendation := pattern.recommendation
        severity := if 2 ≤ matched.length then "medium" else "low" }
  else none

/-- `detect_blind_spots` in `logic/analysis.py`. -/
def detect_blind_spots (personality : PersonalityResult)
    (journals : List JournalEntry) : List BlindSpotInsight :=
  if journals.isEmpty then []
  else BLIND_SPOT_PATTERNS.filterMap (process_pattern personality journals)

/-- The per-axis table of `_render_axis_comparison` in `ui/analysis_ui.py`:
label, axis code, left pole, right pole. -/
def axes_table : List (String × String × String × String) := [
  ("内向(I) / 外向(E)", "EI", "E", "I"),
  ("直感(N) / 感覚(S)", "SN", "S", "N"),
  ("感情(F) / 思考(T)", "TF", "T", "F"),
  ("知覚(P) / 判断(J)", "JP", "J", "P")]

/-- The static diagnostic position of one axis
(`diag_val` in `_render_axis_comparison`): scan the dimension scores for
the first one whose dimension name equals the axis code; when found, map
it to `0.5 − strength/200` when the dominant type is the left pole and to
`0.5 + strength/200` otherwise; default `0.5` when absent. -/
def diag_position (scores : List DimensionScore) (code left : String) : ℚ :=
  match scores.find? (fun ds => ds.dimension.name == code) with
  | none => 1/2
  | some ds =>
    if ds.dominant_type == left then 1/2 - ds.strength_percent / 200
    else 1/2 + ds.strength_percent / 200

/-- The axis-position formula of `_render_axis_comparison` in isolation. -/
def axis_position (dominant left : String) (strength : ℚ) : ℚ :=
  if dominant == left then 1/2 - strength / 200 else 1/2 + strength / 200

/-- Python `estimated_scores.get(code, 0.5)`: association-list lookup with
neutral default. -/
def lookup_estimate (estimated_scores : List (String × ℚ)) (code : String) : ℚ :=
  match estimated_scores.find? (fun p => p.1 == code) with
  | none => 1/2
  | some p => p.2

/-- The per-axis drift signal assembled by `_render_axis_comparison`
(`AxisDriftSignal` of the specification): the static position, the
external estimate, their signed difference, the notable flag
(`abs(diff) > 0.2`), and the favored pole named in the caption when
notable (`right if diff > 0 else left`). -/
structure AxisDriftSignal where
  position : ℚ
  estimate : ℚ
  diff : ℚ
  notable : Bool
  favored : Option String
deriving DecidableEq, Repr

/-- The drift comparison of `_render_axis_comparison` for one axis. -/
def compute_drift (position : ℚ) (estimated_scores : List (String × ℚ))
    (code left right : String) : AxisDriftSignal :=
  let est_val := lookup_estimate estimated_scores code
  let diff := est_val - position
  { position := position
    estimate := est_val
    diff := diff
    notable := decide (1/5 < |diff|)
    favored := if 1/5 < |diff| then some (if 0 < diff then right else left) else none }


/-! ## Helper lemmas -/

theorem py_round1_zero : py_round1 0 = 0 := by
  norm_num [py_round1, round_half_even]

theorem get_question_isSome_of_mem_ids (d : Dimension) (x : ℤ)
    (hx : x ∈ dimension_question_ids d) : (get_question_by_id x).isSome := by
  rcases List.mem_map.1 hx with ⟨q, hq, rfl⟩
  have hq2 : q ∈ DIAGNOSTIC_QUESTIONS := List.mem_of_mem_filter hq
  unfold get_question_by_id
  rw [List.find?_isSome]
  exact ⟨q, hq2, by simp⟩

theorem score_step_total (acc : ℚ × ℚ) (r : UserResponse)
    (h : (get_question_by_id r.question_id).isSome) :
    (score_step acc r).1 + (score_step acc r).2 = acc.1 + acc.2 + 4 := by
  rcases hq : get_question_by_id r.question_id with _ | q
  · rw [hq] at h; simp at h
  · rcases hdir : q.direction with _ | _ <;>
      simp only [score_step, hq, hdir] <;> ring

theorem foldl_score_total (d : Dimension) :
    ∀ (l : List UserResponse), (∀ r ∈ l, r.question_id ∈ dimension_question_ids d) →
    ∀ acc : ℚ × ℚ,
      ((l.foldl score_step acc).1 + (l.foldl score_step acc).2 : ℚ) =
        acc.1 + acc.2 + 4 * l.length
  | [], _, acc => by simp
  | r :: l, h, acc => by
    have hr := h r (List.mem_cons_self r l)
    have ih := foldl_score_total d l (fun x hx => h x (List.mem_cons_of_mem _ hx))
      (score_step acc r)
    simp only [List.foldl_cons, ih,
      score_step_total acc r (get_question_isSome_of_mem_ids d _ hr), List.length_cons]
    push_cast
    ring

/-! ## Claim C3: conservation law -/

/-- Claim C3: for every list of responses whose scores lie in 1..5 and every
dimension, with N the number of responses referencing a catalog question of
that dimension, the returned DimensionScore satisfies
`first_score + second_score = 4 × N` exactly. -/
theorem c3_conservation (responses : List UserResponse) (dimension : Dimension)
    (hscores : ∀ r ∈ responses, 1 ≤ r.score ∧ r.score ≤ 5) :
    (calculate_dimension_score responses dimension).first_score +
      (calculate_dimension_score responses dimension).second_score =
    4 * ((responses.filter
      (fun r => decide (r.question_id ∈ dimension_question_ids dimension))).length : ℚ) := by
  have hmem : ∀ r ∈ responses.filter
      (fun r => decide (r.question_id ∈ dimension_question_ids dimension)),
      r.question_id ∈ dimension_question_ids dimension := by
    intro r hr
    have := List.of_mem_filter hr
    exact of_decide_eq_true this
  have h := foldl_score_total dimension
    (responses.filter
      (fun r => decide (r.question_id ∈ dimension_question_ids dimension)))
    hmem (0, 0)
  simp only [calculate_dimension_score]
  rw [h]
  ring

def rs_c1 : List UserResponse := [⟨"u", 9, 2, 0⟩, ⟨"u", 10, 3, 0⟩, ⟨"u", 11, 3, 0⟩]

/-- Witness for C3 at the concrete response list `rs_c1` (3 answers to SN
questions, scores in 1..5): the totals sum to `4 × 3`. -/
theorem c3_conservation_witness :
    (∀ r ∈ rs_c1, 1 ≤ r.score ∧ r.score ≤ 5) ∧
    (calculate_dimension_score rs_c1 Dimension.SN).first_score +
      (calculate_dimension_score rs_c1 Dimension.SN).second_score =
    4 * ((rs_c1.filter
      (fun r => decide (r.question_id ∈ dimension_question_ids Dimension.SN))).length : ℚ) :=
  ⟨by decide, c3_conservation rs_c1 Dimension.SN (by decide)⟩

/-! ## Claim C1: strength formula (rounded to one decimal by the code) -/

theorem eval_c1 : calculate_dimension_score rs_c1 Dimension.SN =
    { dimension := .SN, first_type := "S", second_type := "N", first_score := 5,
      second_score := 7, dominant_type := "N", strength_percent := 167/10 } := by
  have h9 : get_question_by_id 9 =
      some ⟨9, "具体的な事実やデータに基づいて判断することを好む", .SN, .POSITIVE⟩ := rfl
  have h10 : get_question_by_id 10 =
      some ⟨10, "将来の可能性やパターンを想像することが得意だ", .SN, .NEGATIVE⟩ := rfl
  have h11 : get_question_by_id 11 =
      some ⟨11, "実践的で現実的なアプローチを重視する", .SN, .POSITIVE⟩ := rfl
  have hf : List.filter
      (fun r => decide (r.question_id ∈ dimension_question_ids Dimension.SN))
      [(⟨"u", 9, 2, 0⟩ : UserResponse), ⟨"u", 10, 3, 0⟩, ⟨"u", 11, 3, 0⟩] =
      [⟨"u", 9, 2, 0⟩, ⟨"u", 10, 3, 0⟩, ⟨"u", 11, 3, 0⟩] := rfl
  simp only [calculate_dimension_score, rs_c1, hf, List.foldl_cons, List.foldl_nil,
    score_step, h9, h10, h11, type_mapping]
  norm_num [DimensionScore.mk.injEq, py_round1, round_half_even]

/-- Claim C1 counterexample: at `rs_c1` on the SN dimension the exact ratio is
`50/3 ≈ 16.67`, but the code rounds to one decimal and returns `16.7`, so
`strength_percent` is not exactly `|first − second| / (first + second) × 100`. -/
theorem c1_counterexample :
    (calculate_dimension_score rs_c1 Dimension.SN).strength_percent ≠
      |(calculate_dimension_score rs_c1 Dimension.SN).first_score -
        (calculate_dimension_score rs_c1 Dimension.SN).second_score| /
        ((calculate_dimension_score rs_c1 Dimension.SN).first_score +
          (calculate_dimension_score rs_c1 Dimension.SN).second_score) * 100 := by
  rw [eval_c1]
  norm_num

/-- Claim C1 (amended): the returned `strength_percent` is
`|first_score − second_score| / (first_score + second_score) × 100` rounded
to one decimal (Python `round`), and exactly 0 when the totals sum to zero. -/
theorem c1_strength_rounded (responses : List UserResponse) (dimension : Dimension) :
    (calculate_dimension_score responses dimension).strength_percent =
      if 0 < (calculate_dimension_score responses dimension).first_score +
          (calculate_dimension_score responses dimension).second_score then
        py_round1 (|(calculate_dimension_score responses dimension).first_score -
            (calculate_dimension_score responses dimension).second_score| /
          ((calculate_dimension_score responses dimension).first_score +
            (calculate_dimension_score responses dimension).second_score) * 100)
      else 0 := by
  simp only [calculate_dimension_score, apply_ite py_round1, py_round1_zero]

/-! ## Claim C2: determinism of `calculate_personality_type` -/

/-- Claim C2 counterexample: two runs on identical responses and user id but
at different clock instants (`datetime.now()` differs) return
PersonalityResult values that are not identical in every field: the
`diagnosed_at` field is stamped from the clock. -/
theorem c2_counterexample :
    calculate_personality_type [] "default_user" 0 ≠
      calculate_personality_type [] "default_user" 1 := by
  intro h
  have h2 := congrArg PersonalityResult.diagnosed_at h
  simp [calculate_personality_type] at h2

/-- Claim C2 (amended): two runs of `calculate_personality_type` on identical
response lists and the same user id agree on every field except
`diagnosed_at` (which records the construction-time clock): `user_id`,
`personality_type` and `dimension_scores` are identical. -/
theorem c2_deterministic_core (responses : List UserResponse) (user_id : String)
    (now₁ now₂ : ℤ) :
    (calculate_personality_type responses user_id now₁).user_id =
      (calculate_personality_type responses user_id now₂).user_id ∧
    (calculate_personality_type responses user_id now₁).personality_type =
      (calculate_personality_type responses user_id now₂).personality_type ∧
    (calculate_personality_type responses user_id now₁).dimension_scores =
      (calculate_personality_type responses user_id now₂).dimension_scores :=
  ⟨rfl, rfl, rfl⟩

/-! ## Claim C7: empty-dimension default and the tie-break rule -/

theorem ite_eq_first_iff {α : Type} {c : Prop} [Decidable c] {a b : α} (hne : a ≠ b) :
    (if c then a else b) = a ↔ c := by
  by_cases hc : c
  · simp [hc]
  · simp only [hc, if_neg hc, iff_false]
    exact fun h => hne h.symm

theorem dominant_first_iff (rs : List UserResponse) (d : Dimension) :
    (calculate_dimension_score rs d).dominant_type =
      (calculate_dimension_score rs d).first_type ↔
    (calculate_dimension_score rs d).second_score ≤
      (calculate_dimension_score rs d).first_score := by
  have hne : (type_mapping d).1 ≠ (type_mapping d).2 := by cases d <;> decide
  simp only [calculate_dimension_score]
  exact ite_eq_first_iff hne

/-- Claim C7: when no response references a question of the dimension,
`calculate_dimension_score` returns both totals 0, strength 0, and the
first pole as dominant type; and in general the dominant type is the first
pole exactly when `first_score ≥ second_score` (ties resolve to the first
pole). -/
theorem c7_empty_default (responses : List UserResponse) (dimension : Dimension)
    (h : ∀ r ∈ responses, r.question_id ∉ dimension_question_ids dimension) :
    (calculate_dimension_score responses dimension).first_score = 0 ∧
    (calculate_dimension_score responses dimension).second_score = 0 ∧
    (calculate_dimension_score responses dimension).strength_percent = 0 ∧
    (calculate_dimension_score responses dimension).dominant_type =
      (calculate_dimension_score responses dimension).first_type ∧
    ∀ (rs : List UserResponse) (d : Dimension),
      ((calculate_dimension_score rs d).dominant_type =
        (calculate_dimension_score rs d).first_type ↔
       (calculate_dimension_score rs d).second_score ≤
        (calculate_dimension_score rs d).first_score) := by
  have hf : responses.filter
      (fun r => decide (r.question_id ∈ dimension_question_ids dimension)) = [] := by
    rw [List.filter_eq_nil]
    intro r hr
    simp [h r hr]
  refine ⟨?_, ?_, ?_, ?_, dominant_first_iff⟩ <;>
    simp [calculate_dimension_score, hf, py_round1_zero]

/-- Witness for C7 at the empty response list on the EI dimension. -/
theorem c7_empty_default_witness :
    (∀ r ∈ ([] : List UserResponse),
      r.question_id ∉ dimension_question_ids Dimension.EI) ∧
    ((calculate_dimension_score [] Dimension.EI).first_score = 0 ∧
     (calculate_dimension_score [] Dimension.EI).second_score = 0 ∧
     (calculate_dimension_score [] Dimension.EI).strength_percent = 0 ∧
     (calculate_dimension_score [] Dimension.EI).dominant_type =
       (calculate_dimension_score [] Dimension.EI).first_type ∧
     ∀ (rs : List UserResponse) (d : Dimension),
       ((calculate_dimension_score rs d).dominant_type =
         (calculate_dimension_score rs d).first_type ↔
        (calculate_dimension_score rs d).second_score ≤
         (calculate_dimension_score rs d).first_score)) := by
  have h : ∀ r ∈ ([] : List UserResponse),
      r.question_id ∉ dimension_question_ids Dimension.EI := by simp
  exact ⟨h, c7_empty_default [] Dimension.EI h⟩

/-! ## Claim C4: axis position boundedness -/

/-- Claim C4: for every DimensionScore (whose `strength_percent` satisfies
the pydantic bounds `0 ≤ s ≤ 100`), the static axis position
(`0.5 − s/200` when the dominant type is the first pole, `0.5 + s/200`
otherwise) lies in `[0, 1]`, and `s = 0` yields exactly `0.5` regardless of
the dominant pole. -/
theorem c4_position_bounds (ds : DimensionScore) (left : String)
    (h0 : 0 ≤ ds.strength_percent) (h100 : ds.strength_percent ≤ 100) :
    (0 ≤ axis_position ds.dominant_type left ds.strength_percent ∧
      axis_position ds.dominant_type left ds.strength_percent ≤ 1) ∧
    (ds.strength_percent = 0 →
      axis_position ds.dominant_type left ds.strength_percent = 1/2) := by
  unfold axis_position
  constructor
  · constructor <;> split <;> linarith
  · intro hz
    rw [hz]
    split <;> norm_num

/-- Witness for C4 at a concrete DimensionScore with strength 100. -/
theorem c4_position_bounds_witness :
    (0 ≤ ((⟨.EI, "E", "I", 8, 0, "E", 100⟩ : DimensionScore)).strength_percent ∧
     ((⟨.EI, "E", "I", 8, 0, "E", 100⟩ : DimensionScore)).strength_percent ≤ 100) ∧
    ((0 ≤ axis_position (⟨.EI, "E", "I", 8, 0, "E", 100⟩ : DimensionScore).dominant_type
        "E" (⟨.EI, "E", "I", 8, 0, "E", 100⟩ : DimensionScore).strength_percent ∧
      axis_position (⟨.EI, "E", "I", 8, 0, "E", 100⟩ : DimensionScore).dominant_type
        "E" (⟨.EI, "E", "I", 8, 0, "E", 100⟩ : DimensionScore).strength_percent ≤ 1) ∧
     ((⟨.EI, "E", "I", 8, 0, "E", 100⟩ : DimensionScore).strength_percent = 0 →
      axis_position (⟨.EI, "E", "I", 8, 0, "E", 100⟩ : DimensionScore).dominant_type
        "E" (⟨.EI, "E", "I", 8, 0, "E", 100⟩ : DimensionScore).strength_percent = 1/2)) :=
  ⟨⟨by norm_num, by norm_num⟩,
    c4_position_bounds ⟨.EI, "E", "I", 8, 0, "E", 100⟩ "E" (by norm_num) (by norm_num)⟩

/-! ## Claim C5: the drift comparison -/

/-- Claim C5: the drift comparison defaults the external estimate to 0.5
when the axis code is absent from the mapping, computes the difference as
estimate minus static position, flags it notable exactly when
`|difference| > 0.2` (a difference of exactly 0.2 is not notable), and when
notable favors the right (second) pole when the difference is positive and
the left (first) pole otherwise. -/
theorem c5_drift (position : ℚ) (estimated_scores : List (String × ℚ))
    (code left right : String) :
    (estimated_scores.find? (fun p => p.1 == code) = none →
      (compute_drift position estimated_scores code left right).estimate = 1/2) ∧
    (compute_drift position estimated_scores code left right).diff =
      (compute_drift position estimated_scores code left right).estimate - position ∧
    ((compute_drift position estimated_scores code left right).notable = true ↔
      1/5 < |(compute_drift position estimated_scores code left right).diff|) ∧
    (|(compute_drift position estimated_scores code left right).diff| = 1/5 →
      (compute_drift position estimated_scores code left right).notable = false) ∧
    (compute_drift position estimated_scores code left right).favored =
      (if 1/5 < |(compute_drift position estimated_scores code left right).diff|
       then some (if 0 < (compute_drift position estimated_scores code left right).diff
                  then right else left)
       else none) := by
  refine ⟨?_, rfl, ?_, ?_, rfl⟩
  · intro h
    simp only [compute_drift, lookup_estimate, h]
  · simp [compute_drift]
  · intro h
    simp only [compute_drift] at h ⊢
    rw [decide_eq_false_iff_not]
    rw [h]
    norm_num

/-- Witness for C5 with an empty estimate mapping and position 0.9: the
estimate defaults to 0.5, the difference is −0.4, notable, favoring the
left pole. -/
theorem c5_drift_witness :
    (([] : List (String × ℚ)).find? (fun p => p.1 == "EI") = none ∧
      (compute_drift (9/10) [] "EI" "E" "I").estimate = 1/2) ∧
    (compute_drift (9/10) [] "EI" "E" "I").notable = true ∧
    (compute_drift (9/10) [] "EI" "E" "I").favored = some "E" := by
  have h := c5_drift (9/10) ([] : List (String × ℚ)) "EI" "E" "I"
  have hest := h.1 rfl
  have hd : (compute_drift (9/10) [] "EI" "E" "I").diff = -(2/5 : ℚ) := by
    rw [h.2.1, hest]; norm_num
  refine ⟨⟨rfl, hest⟩, ?_, ?_⟩
  · rw [h.2.2.1, hd, abs_neg, abs_of_nonneg (by norm_num : (0:ℚ) ≤ 2/5)]
    norm_num
  · rw [h.2.2.2.2, hd, abs_neg, abs_of_nonneg (by norm_num : (0:ℚ) ≤ 2/5)]
    rw [if_pos (by norm_num : (1:ℚ)/5 < 2/5)]
    rw [if_neg (by norm_num : ¬(0:ℚ) < -(2/5))]

/-! ## Claim C10: missing axis defaults to the neutral 0.5 position -/

/-- Claim C10: when the dimension-score list has no entry whose dimension
name matches the axis code, the static position defaults to 0.5 and the
drift difference for that axis is computed from position 0.5. -/
theorem c10_missing_axis (scores : List DimensionScore)
    (estimated_scores : List (String × ℚ)) (code left right : String)
    (h : ∀ ds ∈ scores, ds.dimension.name ≠ code) :
    diag_position scores code left = 1/2 ∧
    (compute_drift (diag_position scores code left)
        estimated_scores code left right).diff =
      lookup_estimate estimated_scores code - 1/2 := by
  have hfind : scores.find? (fun ds => ds.dimension.name == code) = none := by
    rw [List.find?_eq_none]
    intro ds hds
    simp [h ds hds]
  constructor
  · simp [diag_position, hfind]
  · simp [compute_drift, diag_position, hfind]

/-- Witness for C10 at an empty score list and the EI axis. -/
theorem c10_missing_axis_witness :
    (∀ ds ∈ ([] : List DimensionScore), ds.dimension.name ≠ "EI") ∧
    (diag_position [] "EI" "E" = 1/2 ∧
     (compute_drift (diag_position [] "EI" "E") [("EI", 7/10)] "EI" "E" "I").diff =
       lookup_estimate [("EI", 7/10)] "EI" - 1/2) := by
  have h : ∀ ds ∈ ([] : List DimensionScore), ds.dimension.name ≠ "EI" := by simp
  exact ⟨h, c10_missing_axis [] [("EI", 7/10)] "EI" "E" "I" h⟩

/-! ## Blind-spot detector: helper lemmas -/

theorem mem_detect (personality : PersonalityResult) (journals : List JournalEntry)
    (ins : BlindSpotInsight) (h : ins ∈ detect_blind_spots personality journals) :
    ∃ pattern ∈ BLIND_SPOT_PATTERNS,
      strContains personality.personality_type pattern.ptype = true ∧
      ins.category = pattern.ptype ++ "タイプの盲点" ∧
      ins.evidence = pattern_evidence journals
        (matched_keywords pattern (all_content journals)) := by
  unfold detect_blind_spots at h
  split at h
  · simp at h
  · rcases List.mem_filterMap.1 h with ⟨pat, hpat, hsome⟩
    refine ⟨pat, hpat, ?_⟩
    simp only [process_pattern] at hsome
    split at hsome
    next hgate =>
      split at hsome
      next => exact absurd hsome (by simp)
      next =>
        have h2 := Option.some.inj hsome
        subst h2
        exact ⟨hgate, rfl, rfl⟩
    next => exact absurd hsome (by simp)

theorem excerpt_length_le (content : String) : (excerpt content).length ≤ 53 := by
  unfold excerpt
  split
  next h =>
    rw [String.length_append]
    have h1 : (String.mk (content.data.take 50)).length = (content.data.take 50).length := rfl
    have h2 : (content.data.take 50).length ≤ 50 := by
      rw [List.length_take]; omega
    have h3 : ("..." : String).length = 3 := rfl
    omega
  next h => omega

/-! ## Claim C6: evidence cap -/

/-- Claim C6: every insight returned by `detect_blind_spots` carries at most
3 evidence entries, and each evidence entry is the entry's date prefix
followed by an excerpt of at most 53 characters (50 characters of content
plus an ellipsis when truncated). -/
theorem c6_evidence_cap (personality : PersonalityResult)
    (journals : List JournalEntry) (ins : BlindSpotInsight)
    (h : ins ∈ detect_blind_spots personality journals) :
    ins.evidence.length ≤ 3 ∧
    ∀ e ∈ ins.evidence, ∃ j ∈ journals,
      e = "[" ++ j.date ++ "] " ++ excerpt j.content ∧
      (excerpt j.content).length ≤ 53 := by
  rcases mem_detect personality journals ins h with ⟨pat, hpat, hgate, hcat, hev⟩
  rw [hev]
  constructor
  · simp only [pattern_evidence, List.length_take]
    exact min_le_left 3 _
  · intro e he
    simp only [pattern_evidence] at he
    have he2 := List.take_subset 3 _ he
    rcases List.mem_filterMap.1 he2 with ⟨j, hj, hjsome⟩
    refine ⟨j, hj, ?_, excerpt_length_le j.content⟩
    split at hjsome
    · exact (Option.some.inj hjsome).symm
    · exact absurd hjsome (by simp)

/-! ## Claim C8: pole-letter gating -/

/-- Claim C8: a contradiction pattern whose pole letter does not occur in
the four-letter type code contributes nothing (`process_pattern` yields
`none` for it regardless of the journal texts), and every insight that is
emitted stems from a pattern whose pole letter does occur in the type. -/
theorem c8_gating (personality : PersonalityResult) (journals : List JournalEntry)
    (pattern : BlindSpotPattern)
    (hgate : strContains personality.personality_type pattern.ptype = false) :
    process_pattern personality journals pattern = none ∧
    ∀ ins ∈ detect_blind_spots personality journals,
      ∃ pat2 ∈ BLIND_SPOT_PATTERNS,
        strContains personality.personality_type pat2.ptype = true ∧
        ins.category = pat2.ptype ++ "タイプの盲点" := by
  constructor
  · simp [process_pattern, hgate]
  · intro ins h
    rcases mem_detect personality journals ins h with ⟨p2, hp2, hg2, hcat, _⟩
    exact ⟨p2, hp2, hg2, hcat⟩

/-! ## Claim C9: one evidence line per entry, in input order -/

theorem filterMap_sublist_map {α β : Type} (f : α → Option β) (g : α → β)
    (hf : ∀ a, f a = none ∨ f a = some (g a)) :
    ∀ l : List α, (l.filterMap f).Sublist (l.map g)
  | [] => by simp
  | a :: l => by
    rw [List.map_cons]
    rcases hf a with h | h
    · rw [List.filterMap_cons_none h]
      exact (filterMap_sublist_map f g hf l).cons (g a)
    · rw [List.filterMap_cons_some h]
      exact (filterMap_sublist_map f g hf l).cons₂ (g a)

/-- Claim C9: for every fired pattern, the insight's evidence list is a
sublist of the journal list mapped to its date-prefixed excerpt lines:
each journal entry contributes at most one evidence line (even when its
text contains several matched keywords), and the lines appear in the order
of the input journal list. -/
theorem c9_evidence_once (personality : PersonalityResult)
    (journals : List JournalEntry) (ins : BlindSpotInsight)
    (h : ins ∈ detect_blind_spots personality journals) :
    ins.evidence.Sublist (journals.map evidence_line) := by
  rcases mem_detect personality journals ins h with ⟨pat, hpat, hgate, hcat, hev⟩
  rw [hev]
  simp only [pattern_evidence]
  refine (List.take_sublist 3 _).trans ?_
  refine filterMap_sublist_map _ evidence_line (fun j => ?_) journals
  by_cases hc : ((matched_keywords pat (all_content journals)).any
      (fun kw => strContains j.content kw)) = true
  · right; simp [hc]
  · left; simp [hc]

/-! ## Concrete witness data for the blind-spot claims -/

def personality_enfp : PersonalityResult :=
  { user_id := "u", personality_type := "ENFP", dimension_scores := [], diagnosed_at := 0 }

def journal_tired : JournalEntry :=
  { id := none, user_id := "u", date := "2025-01-01", content := "今日は人疲れした",
    tags := [], emotion_score := 5, personality_type := none }

def insight_tired : BlindSpotInsight :=
  { category := "Eタイプの盲点"
    description := "社交的でも、内省の時間は必要です。"
    evidence := ["[2025-01-01] 今日は人疲れした"]
    recommendation := "「充電のための一人時間」を罪悪感なく取り入れましょう。"
    severity := "low" }

/-- Witness for C6: on the concrete ENFP result and one short journal entry
the detector emits `insight_tired`, whose evidence satisfies the cap. -/
theorem c6_evidence_cap_witness :
    insight_tired ∈ detect_blind_spots personality_enfp [journal_tired] ∧
    (insight_tired.evidence.length ≤ 3 ∧
     ∀ e ∈ insight_tired.evidence, ∃ j ∈ [journal_tired],
       e = "[" ++ j.date ++ "] " ++ excerpt j.content ∧
       (excerpt j.content).length ≤ 53) := by
  have hm : insight_tired ∈ detect_blind_spots personality_enfp [journal_tired] := by
    decide
  exact ⟨hm, c6_evidence_cap personality_enfp [journal_tired] insight_tired hm⟩

def pattern_j : BlindSpotPattern :=
  ⟨"J_spontaneous_desire", "J", ["もっと自由に", "縛られている", "窮屈"],
    "秩序を好む一方で、自発性への欲求も持っているようです。",
    "計画の中に「予定外の余白時間」を意図的に設けてみましょう。"⟩

def journal_j_keywords : JournalEntry :=
  { id := none, user_id := "u", date := "2025-01-03",
    content := "もっと自由に したい 縛られている 窮屈", tags := [],
    emotion_score := 4, personality_type := none }

/-- Witness for C8: the J pattern never fires for the ENFP type even though
all of its keywords occur in the journal text. -/
theorem c8_gating_witness :
    strContains personality_enfp.personality_type pattern_j.ptype = false ∧
    (process_pattern personality_enfp [journal_j_keywords] pattern_j = none ∧
     ∀ ins ∈ detect_blind_spots personality_enfp [journal_j_keywords],
       ∃ pat2 ∈ BLIND_SPOT_PATTERNS,
         strContains personality_enfp.personality_type pat2.ptype = true ∧
         ins.category = pat2.ptype ++ "タイプの盲点") := by
  have hg : strContains personality_enfp.personality_type pattern_j.ptype = false := by
    decide
  exact ⟨hg, c8_gating personality_enfp [journal_j_keywords] pattern_j hg⟩

def journal_two_keywords : JournalEntry :=
  { id := none, user_id := "u", date := "2025-01-02",
    content := "人疲れで静かにしたい気分", tags := [],
    emotion_score := 3, personality_type := none }

def insight_two_keywords : BlindSpotInsight :=
  { category := "Eタイプの盲点"
    description := "社交的でも、内省の時間は必要です。"
    evidence := ["[2025-01-02] 人疲れで静かにしたい気分"]
    recommendation := "「充電のための一人時間」を罪悪感なく取り入れましょう。"
    severity := "medium" }

/-- Witness for C9: an entry containing two matched keywords (「人疲れ」 and
「静かにしたい」) contributes a single evidence line, and the evidence is a
sublist of the journal list mapped to evidence lines. -/
theorem c9_evidence_once_witness :
    insight_two_keywords ∈ detect_blind_spots personality_enfp [journal_two_keywords] ∧
    insight_two_keywords.evidence.Sublist ([journal_two_keywords].map evidence_line) := by
  have hm : insight_two_keywords ∈
      detect_blind_spots personality_enfp [journal_two_keywords] := by decide
  exact ⟨hm, c9_evidence_once personality_enfp [journal_two_keywords] insight_two_keywords hm⟩
